import Mathlib

/-!
A shallow embedding of the core engine of the "depth-perception" game
(answer validation, streaks, XP, achievements, puzzle delivery, and
guest-result migration), translated from the TypeScript sources:

* `src/lib/xp.ts`               — `calculateXp`
* `src/lib/achievements.ts`     — `checkAchievements`
* `src/lib/constants.ts`        — XP constants and thresholds
* `src/db/schema.ts`            — table row shapes
* `POST /api/game/submit`       — scoring, daily gate, streaks, persistence
* `GET /api/puzzles/today`      — shuffle-and-strip puzzle delivery
* `POST /api/game/migrate`      — guest-result migration
* `GET /api/stats/me`           — streak derivations (same loops as submit)

Database tables are modelled as lists of row structures.  A list of game
results is kept most-recent-first, mirroring the `ORDER BY played_at DESC`
queries the routes issue; inserting a fresh result (whose `played_at` is
`now()`) therefore prepends.  JavaScript `number` fields that the routes
require to be non-negative integers (`hintsUsed`, `solveTimeMs`, scores,
XP) are modelled as `Nat`; the routes' `typeof`/negativity checks are
absorbed by the types.  `Math.random()`-driven choices are explicit
parameters (`rand` / `randomIndex`), and the per-record `try/catch` of the
migration loop is modelled by an explicit failure oracle `insertFails`.
-/

deriving instance DecidableEq for Except

namespace DepthPerception

/-- A row of `puzzles` (`src/db/schema.ts`). -/
structure Puzzle where
  id : String
  title : String
  category : String
  isDaily : Bool
  dailyDate : Option String
deriving Repr, DecidableEq

/-- A row of `puzzle_events` (`src/db/schema.ts`).  `orderIndex` is the
zero-based correct chronological rank inside the puzzle. -/
structure PuzzleEvent where
  id : String
  puzzleId : String
  text : String
  date : String
  sortDate : String
  url : String
  orderIndex : Nat
deriving Repr, DecidableEq

/-- A row of `users` (`src/db/schema.ts`); only the fields the engine
reads or writes. -/
structure User where
  id : String
  walletAddress : String
  xp : Nat
deriving Repr, DecidableEq

/-- A row of `game_results` (`src/db/schema.ts`); `playedAt` is modelled
by the row's position in the most-recent-first list. -/
structure GameResult where
  userId : String
  puzzleId : String
  won : Bool
  score : Nat
  hintsUsed : Nat
  solveTimeMs : Nat
deriving Repr, DecidableEq

/-- A row of `achievements` (`src/db/schema.ts`): the static catalog. -/
structure AchievementDef where
  id : String
  title : String
  description : String
  icon : String
  xpReward : Nat
deriving Repr, DecidableEq

/-- The persistence store: one list per table.  `gameResults` is kept
most-recent-first (`played_at DESC`); `userAchievements` holds
`(userId, achievementId)` pairs. -/
structure Db where
  puzzles : List Puzzle
  puzzleEvents : List PuzzleEvent
  users : List User
  gameResults : List GameResult
  achievements : List AchievementDef
  userAchievements : List (String × String)
deriving Repr, DecidableEq

/-! ### Constants (`src/lib/constants.ts`) -/

def XP_PER_LEVEL : Nat := 500

structure XpAwardTable where
  win : Nat
  perfectBonus : Nat
  speedBonus : Nat
  streakMultiplier : Nat
  dailyChallenge : Nat
deriving Repr, DecidableEq

def XP_AWARDS : XpAwardTable :=
  { win := 100, perfectBonus := 50, speedBonus := 30,
    streakMultiplier := 20, dailyChallenge := 75 }

def MAX_HINTS : Nat := 3

def SPEED_BONUS_THRESHOLD_MS : Nat := 30000

def SPEED_DEMON_THRESHOLD_MS : Nat := 15000

/-! ### `calculateXp` (`src/lib/xp.ts`) -/

structure XpCalcInput where
  won : Bool
  hintsUsed : Nat
  solveTimeMs : Nat
  currentStreak : Nat
  isDaily : Bool
deriving Repr, DecidableEq

/-- `calculateXp` from `src/lib/xp.ts`: XP for a single game.  Losses earn
zero; bonuses stack additively on the base win award. -/
def calculateXp (input : XpCalcInput) : Nat :=
  if !input.won then 0
  else
    let xp := XP_AWARDS.win
    let xp := if input.hintsUsed = 0 then xp + XP_AWARDS.perfectBonus else xp
    let xp := if input.solveTimeMs < SPEED_BONUS_THRESHOLD_MS then xp + XP_AWARDS.speedBonus else xp
    let xp := if input.currentStreak > 1 then xp + XP_AWARDS.streakMultiplier * input.currentStreak else xp
    let xp := if input.isDaily then xp + XP_AWARDS.dailyChallenge else xp
    xp

/-! ### `checkAchievements` (`src/lib/achievements.ts`) -/

structure AchievementCheckInput where
  totalWins : Nat
  totalGames : Nat
  currentStreak : Nat
  bestStreak : Nat
  hintsUsedThisGame : Nat
  solveTimeMsThisGame : Nat
  totalPerfectWins : Nat
  totalDailies : Nat
  won : Bool
  alreadyUnlocked : List String
deriving Repr, DecidableEq

/-- The `check` helper inside `checkAchievements`: push `id` onto the
accumulator when the condition holds and it is not already unlocked. -/
def achCheck (alreadyUnlocked acc : List String) (id : String) (condition : Bool) : List String :=
  if !alreadyUnlocked.contains id && condition then acc ++ [id] else acc

/-- `checkAchievements` from `src/lib/achievements.ts`: the ids newly
unlocked by this game, in catalog order. -/
def checkAchievements (input : AchievementCheckInput) : List String :=
  let c := achCheck input.alreadyUnlocked
  let l := c [] "first_win" (input.won && decide (1 ≤ input.totalWins))
  let l := c l "streak_3" (decide (3 ≤ input.currentStreak))
  let l := c l "streak_7" (decide (7 ≤ input.currentStreak))
  let l := c l "streak_15" (decide (15 ≤ input.currentStreak))
  let l := c l "no_hints" (input.won && decide (input.hintsUsedThisGame = 0))
  let l := c l "speed_demon" (input.won && decide (input.solveTimeMsThisGame < SPEED_DEMON_THRESHOLD_MS))
  let l := c l "daily_5" (decide (5 ≤ input.totalDailies))
  let l := c l "daily_30" (decide (30 ≤ input.totalDailies))
  let l := c l "games_50" (decide (50 ≤ input.totalGames))
  let l := c l "perfect_10" (decide (10 ≤ input.totalPerfectWins))
  l

/-! ### Streak derivations (`POST /api/game/submit`, `GET /api/stats/me`)

Both routes run the same two loops over the player's results: the current
streak walks the most-recent-first list and stops at the first loss; the
best streak scans the reversed (chronological) list with a running
counter and a maximum. -/

/-- The current-streak loop: count consecutive wins from the head of the
most-recent-first list, stopping at the first loss. -/
def currentStreakOf : List Bool → Nat
  | [] => 0
  | w :: rest => if w then currentStreakOf rest + 1 else 0

/-- One iteration of the best-streak loop: the pair is
`(bestStreak, tempStreak)`. -/
def bestStreakStep (p : Nat × Nat) (w : Bool) : Nat × Nat :=
  if w then (if p.2 + 1 > p.1 then p.2 + 1 else p.1, p.2 + 1) else (p.1, 0)

/-- The best-streak loop over the chronological (oldest-first) list. -/
def bestStreakOf (chronological : List Bool) : Nat :=
  (chronological.foldl bestStreakStep (0, 0)).1

/-! ### Answer validation (`POST /api/game/submit`, lines 61-88) -/

/-- The indexed `reduce` computing the score: position `i` of the
candidate scores one point iff `orderedEventIds[i] === correctOrder[i]`
(an out-of-range `correctOrder[i]` is `undefined` and never equal to an
event id). -/
def scoreAux (correctOrder : List String) : List String → Nat → Nat
  | [], _ => 0
  | id :: rest, i =>
    (if correctOrder[i]? = some id then 1 else 0) + scoreAux correctOrder rest (i + 1)

/-- `score` from `POST /api/game/submit`: count of correctly placed
positions of the candidate ordering. -/
def scoreOf (orderedEventIds correctOrder : List String) : Nat :=
  scoreAux correctOrder orderedEventIds 0

/-! ### Database queries shared by the routes -/

/-- `SELECT .. FROM puzzle_events WHERE puzzle_id = ? ORDER BY order_index
ASC`, modelled by a stable sort on `orderIndex` of the matching rows. -/
def eventsForPuzzle (db : Db) (puzzleId : String) : List PuzzleEvent :=
  (db.puzzleEvents.filter (fun e => e.puzzleId == puzzleId)).insertionSort
    (fun a b => a.orderIndex ≤ b.orderIndex)

/-- `SELECT .. FROM users WHERE wallet_address = ? LIMIT 1`. -/
def findUser (db : Db) (walletAddress : String) : Option User :=
  db.users.find? (fun u => u.walletAddress == walletAddress)

/-- `SELECT .. FROM puzzles WHERE id = ? LIMIT 1`. -/
def findPuzzle (db : Db) (id : String) : Option Puzzle :=
  db.puzzles.find? (fun p => p.id == id)

/-- Whether the puzzle row exists and is daily-flagged (`puzzleRow.length
> 0 && puzzleRow[0].isDaily`). -/
def isDailyPuzzle (db : Db) (puzzleId : String) : Bool :=
  match findPuzzle db puzzleId with
  | some p => p.isDaily
  | none => false

/-- The player's results, most recent first
(`WHERE user_id = ? ORDER BY played_at DESC`). -/
def userResults (db : Db) (uid : String) : List GameResult :=
  db.gameResults.filter (fun r => r.userId == uid)

/-- The player's already-unlocked achievement ids
(`SELECT achievement_id FROM user_achievements WHERE user_id = ?`). -/
def alreadyUnlockedOf (db : Db) (uid : String) : List String :=
  (db.userAchievements.filter (fun ua => ua.1 == uid)).map (·.2)

/-- The `game_results ⋈ puzzles` count of the player's attempts on
daily-flagged puzzles (`totalDailies` in the submit route — no `won`
filter). -/
def dailyAttemptCount (db : Db) (uid : String) : Nat :=
  (db.gameResults.filter
    (fun r => r.userId == uid && isDailyPuzzle db r.puzzleId)).length

/-! ### `POST /api/game/submit` -/

inductive ApiError where
  | invalidInput
  | notFound
  | conflict
  | unauthorized
deriving Repr, DecidableEq

/-- The submit route's success payload. -/
structure SubmitResponse where
  won : Bool
  score : Nat
  correctOrder : List String
  xpEarned : Nat
  newAchievements : List AchievementDef
deriving Repr, DecidableEq

/-- The progression stage of the submit route (lines 169-248): given the
store with the fresh result already inserted, recompute the streaks and
lifetime aggregates and run `checkAchievements`. -/
def newlyUnlockedIds (db1 : Db) (user : User) (won : Bool)
    (hintsUsed solveTimeMs : Nat) : List String :=
  let allResults := userResults db1 user.id
  let currentStreak := currentStreakOf (allResults.map (·.won))
  let bestStreak := bestStreakOf ((allResults.map (·.won)).reverse)
  let totalGames := allResults.length
  let totalWins := (allResults.filter (·.won)).length
  let totalPerfectWins :=
    (db1.gameResults.filter
      (fun r => r.userId == user.id && r.won && r.hintsUsed == 0)).length
  let totalDailies := dailyAttemptCount db1 user.id
  checkAchievements
    { totalWins, totalGames, currentStreak, bestStreak,
      hintsUsedThisGame := hintsUsed, solveTimeMsThisGame := solveTimeMs,
      totalPerfectWins, totalDailies, won,
      alreadyUnlocked := alreadyUnlockedOf db1 user.id }

/-- The persisting tail of the submit route (lines 159-321): insert the
result, compute progression, persist new achievements, compute and
credit XP, and build the response. -/
def submitPersist (db : Db) (user : User) (puzzleId : String) (won : Bool)
    (score hintsUsed solveTimeMs : Nat) (correctOrder : List String) :
    SubmitResponse × Db :=
  let newResult : GameResult :=
    { userId := user.id, puzzleId, won, score, hintsUsed, solveTimeMs }
  let db1 := { db with gameResults := newResult :: db.gameResults }
  let unlockedNow := newlyUnlockedIds db1 user won hintsUsed solveTimeMs
  let newUserAchievements :=
    db1.userAchievements ++ unlockedNow.map (fun aid => (user.id, aid))
  let achievementRows :=
    db1.achievements.filter (fun a => unlockedNow.contains a.id)
  let achievementXp := achievementRows.foldl (fun sum a => sum + a.xpReward) 0
  let isDaily := isDailyPuzzle db1 puzzleId
  let currentStreak := currentStreakOf ((userResults db1 user.id).map (·.won))
  let xpEarned :=
    calculateXp { won, hintsUsed, solveTimeMs, currentStreak, isDaily }
      + achievementXp
  let updatedUsers := db1.users.map
    (fun u => if u.id == user.id then { u with xp := u.xp + xpEarned } else u)
  ({ won, score, correctOrder, xpEarned, newAchievements := achievementRows },
   { db1 with userAchievements := newUserAchievements, users := updatedUsers })

/-- `POST /api/game/submit`.  `session` is the authenticated wallet
address, if any.  Errors carry the route's status code meaning:
`invalidInput` = 400, `notFound` = 404, `conflict` = 409.  An error is
returned before any store mutation, so the caller's `db` is untouched on
the error path. -/
def submit (db : Db) (session : Option String) (puzzleId : String)
    (orderedEventIds : List String) (hintsUsed solveTimeMs : Nat) :
    Except ApiError (SubmitResponse × Db) :=
  if puzzleId == "" then .error .invalidInput
  else if orderedEventIds.isEmpty then .error .invalidInput
  else
    let correctEvents := eventsForPuzzle db puzzleId
    if correctEvents.isEmpty then .error .notFound
    else
      let correctOrder := correctEvents.map (·.id)
      let score := scoreOf orderedEventIds correctOrder
      let won := score == correctOrder.length
      match session with
      | none =>
        .ok ({ won, score, correctOrder, xpEarned := 0, newAchievements := [] }, db)
      | some walletAddress =>
        match findUser db walletAddress with
        | none =>
          .ok ({ won, score, correctOrder, xpEarned := 0, newAchievements := [] }, db)
        | some user =>
          if isDailyPuzzle db puzzleId &&
              db.gameResults.any
                (fun r => r.userId == user.id && r.puzzleId == puzzleId) then
            .error .conflict
          else
            .ok (submitPersist db user puzzleId won score hintsUsed solveTimeMs
                  correctOrder)

/-! ### `GET /api/puzzles/today` -/

/-- The answer-free event projection served to the client: only `id`,
`text`, `date` and `url` — no `orderIndex`, no `sortDate`. -/
structure ServedEvent where
  id : String
  text : String
  date : String
  url : String
deriving Repr, DecidableEq

/-- Strip the sensitive fields from an event (the `.map` in the route). -/
def stripEvent (e : PuzzleEvent) : ServedEvent :=
  { id := e.id, text := e.text, date := e.date, url := e.url }

/-- One swap of the Fisher-Yates loop body: exchange positions `i` and
`j` (both in range whenever the loop runs). -/
def lswap {α : Type} (l : List α) (i j : Nat) : List α :=
  match l[i]?, l[j]? with
  | some x, some y => (l.set i y).set j x
  | _, _ => l

/-- The Fisher-Yates `for` loop, running `i` from its current value down
to `1`; `rand i % (i + 1)` models `Math.floor(Math.random() * (i + 1))`. -/
def fyGo {α : Type} (rand : Nat → Nat) : List α → Nat → List α
  | l, 0 => l
  | l, i + 1 => fyGo rand (lswap l (i + 1) (rand (i + 1) % (i + 2))) i

/-- `shuffle` from `GET /api/puzzles/today`: Fisher-Yates over a copy of
the array. -/
def shuffle {α : Type} (arr : List α) (rand : Nat → Nat) : List α :=
  fyGo rand arr (arr.length - 1)

/-- The puzzle payload returned to the client. -/
structure PuzzleResponse where
  id : String
  title : String
  category : String
  isDaily : Bool
  events : List ServedEvent
deriving Repr, DecidableEq

/-- Serve one selected puzzle: fetch its events, shuffle, strip the
sensitive fields, and wrap in the payload (lines 61-85 of the route). -/
def servePuzzle (db : Db) (puzzle : Puzzle) (rand : Nat → Nat) : PuzzleResponse :=
  { id := puzzle.id, title := puzzle.title, category := puzzle.category,
    isDaily := puzzle.isDaily,
    events := (shuffle (eventsForPuzzle db puzzle.id) rand).map stripEvent }

/-- `GET /api/puzzles/today`: today's daily if present, else a uniformly
random puzzle (`randomIndex` models `ORDER BY random() LIMIT 1`), else
404. -/
def getTodayPuzzle (db : Db) (today : String) (randomIndex : Nat)
    (rand : Nat → Nat) : Except ApiError PuzzleResponse :=
  match db.puzzles.find? (fun p => p.isDaily && p.dailyDate == some today) with
  | some p => .ok (servePuzzle db p rand)
  | none =>
    match db.puzzles[randomIndex % max db.puzzles.length 1]? with
    | some p => .ok (servePuzzle db p rand)
    | none => .error .notFound

/-! ### `POST /api/game/migrate` -/

/-- A guest result from the client's localStorage batch. -/
structure GuestGameResult where
  puzzleId : String
  won : Bool
  score : Nat
  hintsUsed : Nat
  solveTimeMs : Nat
  playedAt : String
deriving Repr, DecidableEq

/-- The `game_results` row built from a migrated guest result. -/
def migrationRow (uid : String) (r : GuestGameResult) : GameResult :=
  { userId := uid, puzzleId := r.puzzleId, won := r.won, score := r.score,
    hintsUsed := r.hintsUsed, solveTimeMs := r.solveTimeMs }

/-- The migrate route's look-up-then-create of the player record (lines
70-83): the resolved user and the resulting `users` table.  The
generated uuid of a first-time user is modelled by the wallet address
itself. -/
def upsertUser (db : Db) (walletAddress : String) : User × List User :=
  match findUser db walletAddress with
  | some u => (u, db.users)
  | none =>
    let u : User := { id := walletAddress, walletAddress, xp := 0 }
    (u, db.users ++ [u])

/-- `POST /api/game/migrate`.  `insertFails` is the environment's
per-record insertion-failure oracle (the route wraps each insert in a
`try/catch` and skips failures). -/
def migrate (db : Db) (session : Option String) (results : List GuestGameResult)
    (insertFails : GuestGameResult → Bool) : Except ApiError (Nat × Db) :=
  match session with
  | none => .error .unauthorized
  | some walletAddress =>
    if results.isEmpty then .error .invalidInput
    else
      let user := (upsertUser db walletAddress).1
      let users1 := (upsertUser db walletAddress).2
      let validResults :=
        results.filter (fun r => (findPuzzle db r.puzzleId).isSome)
      let inserted := validResults.filter (fun r => !insertFails r)
      .ok (inserted.length,
        { db with users := users1,
                  gameResults := inserted.map (migrationRow user.id)
                    ++ db.gameResults })

/-! ## Helper lemmas -/

/-- Specification-side restatement of the score: walk both sequences in
lockstep and count positionwise matches. -/
def matchCount : List String → List String → Nat
  | [], _ => 0
  | _ :: _, [] => 0
  | a :: as, b :: bs => (if a = b then 1 else 0) + matchCount as bs

theorem matchCount_nil (l : List String) : matchCount l [] = 0 := by
  cases l <;> rfl

theorem scoreAux_eq_matchCount (co : List String) :
    ∀ (cand : List String) (n : Nat), scoreAux co cand n = matchCount cand (co.drop n) := by
  intro cand
  induction cand with
  | nil => intro n; cases co.drop n <;> rfl
  | cons a as ih =>
    intro n
    have hdrop : co.drop (n + 1) = (co.drop n).drop 1 := by
      rw [List.drop_drop]
    have hget : (co.drop n)[0]? = co[n]? := by
      simp [List.getElem?_drop]
    rcases h : co.drop n with _ | ⟨b, bs⟩
    · simp only [scoreAux, ih (n + 1), hdrop, h, List.drop_nil, matchCount_nil]
      rw [← hget, h]
      simp
    · simp only [scoreAux, ih (n + 1), hdrop, h, matchCount, List.drop_one,
        List.tail_cons]
      rw [← hget, h]
      simp only [List.getElem?_cons_zero, Option.some.injEq]
      by_cases hab : b = a
      · subst hab; simp
      · have hba : ¬a = b := fun hc => hab hc.symm
        simp [hab, hba]

theorem matchCount_eq_filter_range :
    ∀ (cand co : List String),
      matchCount cand co =
        ((List.range co.length).filter
          (fun i => decide (cand[i]? = co[i]?))).length := by
  intro cand
  induction cand with
  | nil =>
    intro co
    have hnil : (List.range co.length).filter
        (fun i => decide (([] : List String)[i]? = co[i]?)) = [] := by
      rw [List.filter_eq_nil_iff]
      intro i hi
      rw [List.mem_range] at hi
      have hne : co[i]? ≠ none := by
        rw [ne_eq, List.getElem?_eq_none_iff]
        omega
      rcases hv : co[i]? with _ | v
      · exact absurd hv hne
      · simp [hv]
    rw [show matchCount [] co = 0 from rfl, hnil]
    rfl
  | cons a as ih =>
    intro co
    cases co with
    | nil => rfl
    | cons b bs =>
      simp only [matchCount, List.length_cons, List.range_succ_eq_map,
        List.filter_cons, List.getElem?_cons_zero]
      have hmap : (List.map Nat.succ (List.range bs.length)).filter
            (fun i => decide ((a :: as)[i]? = (b :: bs)[i]?))
          = List.map Nat.succ ((List.range bs.length).filter
            (fun i => decide (as[i]? = bs[i]?))) := by
        rw [List.filter_map]
        congr 1
        apply List.filter_congr
        intro i _
        simp [Function.comp, List.getElem?_cons_succ]
      by_cases hab : a = b
      · subst hab
        simp [hmap, ih bs, Nat.add_comm]
      · have : ¬ (some a = some b) := by simp [hab]
        simp [this, hab, hmap, ih bs]

theorem scoreOf_eq_filter_range (cand co : List String) :
    scoreOf cand co =
      ((List.range co.length).filter (fun i => decide (cand[i]? = co[i]?))).length := by
  rw [scoreOf, scoreAux_eq_matchCount co cand 0, List.drop_zero,
    matchCount_eq_filter_range]

theorem scoreOf_le_length (cand co : List String) : scoreOf cand co ≤ co.length := by
  rw [scoreOf_eq_filter_range]
  calc ((List.range co.length).filter _).length
      ≤ (List.range co.length).length := List.length_filter_le _ _
    _ = co.length := List.length_range _

/-- Accumulating fold of `xpReward` equals the accumulator plus the sum. -/
theorem foldl_xpReward (l : List AchievementDef) :
    ∀ n : Nat, l.foldl (fun sum a => sum + a.xpReward) n
      = n + (l.map (·.xpReward)).sum := by
  induction l with
  | nil => intro n; simp
  | cons a as ih => intro n; simp [List.foldl_cons, ih, Nat.add_assoc]

/-- The best-streak fold never decreases its maximum component. -/
theorem bestStreakStep_fst_le (p : Nat × Nat) (w : Bool) :
    p.1 ≤ (bestStreakStep p w).1 := by
  unfold bestStreakStep
  cases w
  · simp
  · simp only [if_true]
    split <;> omega

theorem foldl_bestStreakStep_fst_le (l : List Bool) :
    ∀ p : Nat × Nat, p.1 ≤ (l.foldl bestStreakStep p).1 := by
  induction l with
  | nil => intro p; exact Nat.le_refl _
  | cons w rest ih =>
    intro p
    exact Nat.le_trans (bestStreakStep_fst_le p w) (ih (bestStreakStep p w))

/-- The current-streak loop is the length of the initial all-win segment
of the most-recent-first list. -/
theorem currentStreakOf_eq_takeWhile (l : List Bool) :
    currentStreakOf l = (l.takeWhile (fun w => w)).length := by
  induction l with
  | nil => rfl
  | cons w rest ih =>
    cases w <;> simp [currentStreakOf, List.takeWhile_cons, ih]

/-- Appending more (newer) attempts never decreases the best streak. -/
theorem bestStreakOf_append_le (l extra : List Bool) :
    bestStreakOf l ≤ bestStreakOf (l ++ extra) := by
  unfold bestStreakOf
  rw [List.foldl_append]
  exact foldl_bestStreakStep_fst_le extra _

/-! Membership and length facts about the Fisher-Yates shuffle. -/

theorem lswap_length {α : Type} (l : List α) (i j : Nat) :
    (lswap l i j).length = l.length := by
  unfold lswap
  rcases hx : l[i]? with _ | x
  · simp
  · rcases hy : l[j]? with _ | y <;> simp [List.length_set]

theorem mem_of_mem_lswap {α : Type} {l : List α} {i j : Nat} {a : α}
    (h : a ∈ lswap l i j) : a ∈ l := by
  unfold lswap at h
  rcases hx : l[i]? with _ | x <;> rw [hx] at h
  · exact h
  · rcases hy : l[j]? with _ | y <;> rw [hy] at h
    · exact h
    · have hxm : x ∈ l := List.mem_iff_getElem?.mpr ⟨i, hx⟩
      have hym : y ∈ l := List.mem_iff_getElem?.mpr ⟨j, hy⟩
      rcases List.mem_or_eq_of_mem_set h with h2 | h2
      · rcases List.mem_or_eq_of_mem_set h2 with h3 | h3
        · exact h3
        · exact h3 ▸ hym
      · exact h2 ▸ hxm

theorem fyGo_length {α : Type} (rand : Nat → Nat) :
    ∀ (i : Nat) (l : List α), (fyGo rand l i).length = l.length := by
  intro i
  induction i with
  | zero => intro l; rfl
  | succ k ih => intro l; rw [fyGo, ih, lswap_length]

theorem mem_of_mem_fyGo {α : Type} (rand : Nat → Nat) :
    ∀ (i : Nat) (l : List α) (a : α), a ∈ fyGo rand l i → a ∈ l := by
  intro i
  induction i with
  | zero => intro l a h; exact h
  | succ k ih =>
    intro l a h
    exact mem_of_mem_lswap (ih _ a h)

theorem shuffle_length {α : Type} (arr : List α) (rand : Nat → Nat) :
    (shuffle arr rand).length = arr.length :=
  fyGo_length rand _ arr

theorem mem_of_mem_shuffle {α : Type} {arr : List α} {rand : Nat → Nat} {a : α}
    (h : a ∈ shuffle arr rand) : a ∈ arr :=
  mem_of_mem_fyGo rand _ arr a h

/-- Any successful submission reports the correct order fetched for the
puzzle, the positional score of the candidate against it, and the
exact-match verdict — on the guest path, the missing-user path, and the
persisting path alike. -/
theorem submit_ok_shape (db : Db) (session : Option String) (puzzleId : String)
    (cand : List String) (hintsUsed solveTimeMs : Nat)
    (resp : SubmitResponse) (db2 : Db)
    (hok : submit db session puzzleId cand hintsUsed solveTimeMs = .ok (resp, db2)) :
    resp.correctOrder = (eventsForPuzzle db puzzleId).map (·.id) ∧
    resp.score = scoreOf cand ((eventsForPuzzle db puzzleId).map (·.id)) ∧
    resp.won = (resp.score == resp.correctOrder.length) := by
  simp only [submit] at hok
  repeat' split at hok
  any_goals exact Except.noConfusion hok
  all_goals
    first
      | (simp only [Except.ok.injEq, Prod.mk.injEq] at hok
         obtain ⟨h1, -⟩ := hok
         subst h1
         exact ⟨rfl, rfl, rfl⟩)
      | (simp only [Except.ok.injEq] at hok
         have h1 : resp = (resp, db2).1 := rfl
         rw [h1, ← hok]
         exact ⟨rfl, rfl, rfl⟩)

/-- The fetched correct order is sorted by `orderIndex` and is a
permutation of the puzzle's event rows. -/
theorem eventsForPuzzle_sorted_perm (db : Db) (puzzleId : String) :
    (eventsForPuzzle db puzzleId).Sorted (fun a b => a.orderIndex ≤ b.orderIndex) ∧
    (eventsForPuzzle db puzzleId).Perm
      (db.puzzleEvents.filter (fun e => e.puzzleId == puzzleId)) := by
  haveI : IsTotal PuzzleEvent (fun a b => a.orderIndex ≤ b.orderIndex) :=
    ⟨fun a b => Nat.le_total a.orderIndex b.orderIndex⟩
  haveI : IsTrans PuzzleEvent (fun a b => a.orderIndex ≤ b.orderIndex) :=
    ⟨fun _ _ _ hab hbc => Nat.le_trans hab hbc⟩
  exact ⟨List.sorted_insertionSort _ _, List.perm_insertionSort _ _⟩

/-- C1: for a submission whose puzzle exists (the call succeeds), the
engine reports `correctOrder` as the puzzle's event ids sorted by
`orderIndex` ascending, the score as the count of positions `i` in
`[0, N)` where the candidate matches `correctOrder`, with
`0 ≤ score ≤ N`, and `won` exactly when `score = N`. -/
theorem C1_answer_validation (db : Db) (session : Option String)
    (puzzleId : String) (cand : List String) (hintsUsed solveTimeMs : Nat)
    (resp : SubmitResponse) (db2 : Db)
    (hok : submit db session puzzleId cand hintsUsed solveTimeMs = .ok (resp, db2)) :
    resp.correctOrder = (eventsForPuzzle db puzzleId).map (·.id) ∧
    (eventsForPuzzle db puzzleId).Sorted (fun a b => a.orderIndex ≤ b.orderIndex) ∧
    (eventsForPuzzle db puzzleId).Perm
      (db.puzzleEvents.filter (fun e => e.puzzleId == puzzleId)) ∧
    resp.score =
      ((List.range resp.correctOrder.length).filter
        (fun i => decide (cand[i]? = resp.correctOrder[i]?))).length ∧
    resp.score ≤ resp.correctOrder.length ∧
    (resp.won = true ↔ resp.score = resp.correctOrder.length) := by
  obtain ⟨hco, hsc, hwon⟩ :=
    submit_ok_shape db session puzzleId cand hintsUsed solveTimeMs resp db2 hok
  obtain ⟨hsorted, hperm⟩ := eventsForPuzzle_sorted_perm db puzzleId
  refine ⟨hco, hsorted, hperm, ?_, ?_, ?_⟩
  · rw [hsc, hco, scoreOf_eq_filter_range]
  · rw [hsc, hco]
    exact scoreOf_le_length _ _
  · rw [hwon]
    exact beq_iff_eq

/-- C8: the current streak counts consecutive wins from the most recent
attempt backwards, stopping at the first loss (so it is `0` right after
any losing attempt), and the best streak never decreases as further
attempts are appended to the (chronological) history. -/
theorem C8_streak_derivation (l extra : List Bool) :
    currentStreakOf l = (l.takeWhile (fun w => w)).length ∧
    currentStreakOf (false :: l) = 0 ∧
    bestStreakOf l ≤ bestStreakOf (l ++ extra) :=
  ⟨currentStreakOf_eq_takeWhile l, rfl, bestStreakOf_append_le l extra⟩

/-- On the authenticated persisting path (user found, daily gate passed),
a successful submission is exactly `submitPersist` applied to the scored
verdict. -/
theorem submit_persist_path (db : Db) (w pid : String) (cand : List String)
    (hintsUsed solveTimeMs : Nat) (user : User)
    (resp : SubmitResponse) (db2 : Db)
    (huser : findUser db w = some user)
    (hok : submit db (some w) pid cand hintsUsed solveTimeMs = .ok (resp, db2)) :
    (resp, db2) = submitPersist db user pid
      (scoreOf cand ((eventsForPuzzle db pid).map (·.id))
        == ((eventsForPuzzle db pid).map (·.id)).length)
      (scoreOf cand ((eventsForPuzzle db pid).map (·.id)))
      hintsUsed solveTimeMs
      ((eventsForPuzzle db pid).map (·.id)) := by
  simp only [submit, huser] at hok
  repeat' split at hok
  any_goals exact Except.noConfusion hok
  exact (Except.ok.inj hok).symm

/-- Closed form of `calculateXp`: zero for a loss, an additive stack of
independent bonuses for a win. -/
theorem calculateXp_closed (w : Bool) (h t s : Nat) (d : Bool) :
    calculateXp { won := w, hintsUsed := h, solveTimeMs := t,
                  currentStreak := s, isDaily := d } =
      if w then
        XP_AWARDS.win + (if h = 0 then XP_AWARDS.perfectBonus else 0)
          + (if t < SPEED_BONUS_THRESHOLD_MS then XP_AWARDS.speedBonus else 0)
          + (if 1 < s then XP_AWARDS.streakMultiplier * s else 0)
          + (if d then XP_AWARDS.dailyChallenge else 0)
      else 0 := by
  cases w
  · rfl
  · simp only [calculateXp, Bool.not_true, Bool.false_eq_true, if_false, if_true]
    cases d <;> split_ifs <;> simp [XP_AWARDS]

/-- C3: on the authenticated persisting path, the XP awarded is
`BASE_WIN` plus the perfect, speed, streak (at the streak reached after
this win, when above one) and daily bonuses — all additive — plus the
rewards of the achievements newly unlocked by the attempt, and the
non-achievement part is paid only on a win. -/
theorem C3_xp_formula (db : Db) (w pid : String) (cand : List String)
    (hintsUsed solveTimeMs : Nat) (user : User)
    (resp : SubmitResponse) (db2 : Db)
    (huser : findUser db w = some user)
    (hok : submit db (some w) pid cand hintsUsed solveTimeMs = .ok (resp, db2)) :
    resp.xpEarned =
      (if resp.won then
        XP_AWARDS.win
          + (if hintsUsed = 0 then XP_AWARDS.perfectBonus else 0)
          + (if solveTimeMs < SPEED_BONUS_THRESHOLD_MS then XP_AWARDS.speedBonus else 0)
          + (if 1 < currentStreakOf ((userResults db2 user.id).map (·.won)) then
               XP_AWARDS.streakMultiplier
                 * currentStreakOf ((userResults db2 user.id).map (·.won))
             else 0)
          + (if isDailyPuzzle db pid then XP_AWARDS.dailyChallenge else 0)
       else 0)
      + (resp.newAchievements.map (·.xpReward)).sum := by
  have hpp := submit_persist_path db w pid cand hintsUsed solveTimeMs user resp db2
    huser hok
  have h1 : resp = (submitPersist db user pid
      (scoreOf cand ((eventsForPuzzle db pid).map (·.id))
        == ((eventsForPuzzle db pid).map (·.id)).length)
      (scoreOf cand ((eventsForPuzzle db pid).map (·.id)))
      hintsUsed solveTimeMs
      ((eventsForPuzzle db pid).map (·.id))).1 := congrArg Prod.fst hpp
  have h2 : db2 = (submitPersist db user pid
      (scoreOf cand ((eventsForPuzzle db pid).map (·.id))
        == ((eventsForPuzzle db pid).map (·.id)).length)
      (scoreOf cand ((eventsForPuzzle db pid).map (·.id)))
      hintsUsed solveTimeMs
      ((eventsForPuzzle db pid).map (·.id))).2 := congrArg Prod.snd hpp
  subst h1
  subst h2
  simp only [submitPersist, userResults, isDailyPuzzle, findPuzzle]
  rw [calculateXp_closed, foldl_xpReward]
  simp

/-- Finding a user by wallet address commutes with the XP-crediting map
(which never touches wallet addresses). -/
theorem findUser_map_xp (l : List User) (w uid : String) (delta : Nat) :
    (l.map (fun u => if u.id == uid then { u with xp := u.xp + delta } else u)).find?
        (fun u => u.walletAddress == w) =
      (l.find? (fun u => u.walletAddress == w)).map
        (fun u => if u.id == uid then { u with xp := u.xp + delta } else u) := by
  rw [List.find?_map]
  have hpf : ((fun u : User => u.walletAddress == w) ∘ fun u =>
      if u.id == uid then { u with xp := u.xp + delta } else u) =
      (fun u : User => u.walletAddress == w) := by
    funext u
    by_cases h : (u.id == uid) = true <;> simp [Function.comp, h]
  rw [hpf]

/-- C10: a persisted losing attempt earns exactly the sum of the rewards
of the achievements it newly unlocked (zero when there are none), and
the stored XP total is incremented by exactly that amount. -/
theorem C10_loss_xp (db : Db) (w pid : String) (cand : List String)
    (hintsUsed solveTimeMs : Nat) (user : User)
    (resp : SubmitResponse) (db2 : Db)
    (huser : findUser db w = some user)
    (hok : submit db (some w) pid cand hintsUsed solveTimeMs = .ok (resp, db2))
    (hloss : resp.won = false) :
    resp.xpEarned = (resp.newAchievements.map (·.xpReward)).sum ∧
    findUser db2 w = some { user with xp := user.xp + resp.xpEarned } := by
  have hpp := submit_persist_path db w pid cand hintsUsed solveTimeMs user resp db2
    huser hok
  have h1 : resp = (submitPersist db user pid
      (scoreOf cand ((eventsForPuzzle db pid).map (·.id))
        == ((eventsForPuzzle db pid).map (·.id)).length)
      (scoreOf cand ((eventsForPuzzle db pid).map (·.id)))
      hintsUsed solveTimeMs
      ((eventsForPuzzle db pid).map (·.id))).1 := congrArg Prod.fst hpp
  have h2 : db2 = (submitPersist db user pid
      (scoreOf cand ((eventsForPuzzle db pid).map (·.id))
        == ((eventsForPuzzle db pid).map (·.id)).length)
      (scoreOf cand ((eventsForPuzzle db pid).map (·.id)))
      hintsUsed solveTimeMs
      ((eventsForPuzzle db pid).map (·.id))).2 := congrArg Prod.snd hpp
  subst h1
  subst h2
  have hW : (scoreOf cand ((eventsForPuzzle db pid).map (·.id))
      == ((eventsForPuzzle db pid).map (·.id)).length) = false := hloss
  constructor
  · simp only [submitPersist]
    rw [calculateXp_closed, foldl_xpReward, hW]
    simp
  · simp only [submitPersist, findUser]
    rw [findUser_map_xp]
    rw [show List.find? (fun u => u.walletAddress == w) db.users = some user from huser]
    simp [beq_self_eq_true]

/-- C4: an authenticated submission (valid body, puzzle with events) to a
daily-flagged puzzle the player has already attempted is rejected with
`Conflict`; the rejection precedes every insert and update, so the store
is untouched: no new attempt, no XP change, no achievement row. -/
theorem C4_daily_conflict (db : Db) (w pid : String) (cand : List String)
    (hintsUsed solveTimeMs : Nat) (user : User)
    (hpid : pid ≠ "")
    (hcand : cand ≠ [])
    (hev : (eventsForPuzzle db pid).isEmpty = false)
    (huser : findUser db w = some user)
    (hdaily : isDailyPuzzle db pid = true)
    (hprior : ∃ r ∈ db.gameResults, r.userId = user.id ∧ r.puzzleId = pid) :
    submit db (some w) pid cand hintsUsed solveTimeMs = .error .conflict := by
  have h1 : (pid == "") = false := by
    rw [beq_eq_false_iff_ne]
    exact hpid
  have h2 : cand.isEmpty = false := by
    rw [Bool.eq_false_iff, ne_eq, List.isEmpty_iff]
    exact hcand
  have h4 : (db.gameResults.any
      fun r => r.userId == user.id && r.puzzleId == pid) = true := by
    rw [List.any_eq_true]
    rcases hprior with ⟨r, hr, hu, hp⟩
    exact ⟨r, hr, by simp [hu, hp]⟩
  simp [submit, h1, h2, hev, huser, hdaily, h4]

/-- Any served puzzle payload has exactly one entry per stored event of
that puzzle, and each entry is precisely the four-field projection
(id, text, date, url) of one of the puzzle's stored event rows. -/
theorem servePuzzle_spec (db : Db) (p : Puzzle) (rand : Nat → Nat) :
    (servePuzzle db p rand).events.length = (eventsForPuzzle db p.id).length ∧
    ∀ e ∈ (servePuzzle db p rand).events, ∃ src ∈ db.puzzleEvents,
      src.puzzleId = p.id ∧ e = stripEvent src := by
  constructor
  · simp [servePuzzle, shuffle_length]
  · intro e he
    simp only [servePuzzle] at he
    rcases List.mem_map.mp he with ⟨ev, hev, heq⟩
    have hm : ev ∈ eventsForPuzzle db p.id := mem_of_mem_shuffle hev
    have hf : ev ∈ db.puzzleEvents.filter (fun x => x.puzzleId == p.id) :=
      ((eventsForPuzzle_sorted_perm db p.id).2.mem_iff).mp hm
    rcases List.mem_filter.mp hf with ⟨h3, h4⟩
    exact ⟨ev, h3, by simpa using h4, heq.symm⟩

/-- C2: every event of a delivered puzzle carries only the four public
fields of one of that puzzle's stored events (the `ServedEvent` type has
no `orderIndex` and no `sortDate`), and nothing is added or dropped. -/
theorem C2_answer_free_delivery (db : Db) (today : String) (randomIndex : Nat)
    (rand : Nat → Nat) (resp : PuzzleResponse)
    (hok : getTodayPuzzle db today randomIndex rand = .ok resp) :
    resp.events.length = (eventsForPuzzle db resp.id).length ∧
    ∀ e ∈ resp.events, ∃ src ∈ db.puzzleEvents,
      src.puzzleId = resp.id ∧ e = stripEvent src := by
  unfold getTodayPuzzle at hok
  repeat' split at hok
  any_goals exact Except.noConfusion hok
  all_goals
    (have h1 : resp = servePuzzle db _ rand := (Except.ok.inj hok).symm
     subst h1
     exact servePuzzle_spec db _ rand)

/-- Membership in one step of the `check` helper. -/
theorem mem_achCheck (x : String) (already acc : List String) (id : String)
    (cond : Bool) :
    x ∈ achCheck already acc id cond ↔
      x ∈ acc ∨ (x = id ∧ id ∉ already ∧ cond = true) := by
  unfold achCheck
  split
  next h =>
    rw [Bool.and_eq_true, Bool.not_eq_true'] at h
    have hnm : id ∉ already := by simpa using h.1
    simp [List.mem_append, hnm, h.2]
  next h =>
    constructor
    · exact fun hx => Or.inl hx
    · rintro (hx | ⟨-, hc1, hc2⟩)
      · exact hx
      · exact absurd (by simp [hc1, hc2]) h

/-- C7 (amended): on a persisted submission, `daily_5` (resp. `daily_30`)
is newly unlocked exactly when it is not already unlocked and the
player's lifetime count of daily-flagged attempts — won or lost,
including the attempt just recorded — is at least 5 (resp. 30). -/
theorem C7_amended_daily_milestones (db1 : Db) (user : User) (won : Bool)
    (hintsUsed solveTimeMs : Nat) :
    ("daily_5" ∈ newlyUnlockedIds db1 user won hintsUsed solveTimeMs ↔
      ("daily_5" ∉ alreadyUnlockedOf db1 user.id ∧
        5 ≤ dailyAttemptCount db1 user.id)) ∧
    ("daily_30" ∈ newlyUnlockedIds db1 user won hintsUsed solveTimeMs ↔
      ("daily_30" ∉ alreadyUnlockedOf db1 user.id ∧
        30 ≤ dailyAttemptCount db1 user.id)) := by
  unfold newlyUnlockedIds checkAchievements
  constructor <;> simp [mem_achCheck]

/-- C9: every authenticated migration of a non-empty batch — whether the
player's record already exists or is created by the route's upsert —
inserts, under the resolved player identity, exactly the records whose
puzzle still exists and whose individual insert does not fail: records
with missing puzzles are silently skipped without error, one record's
failure never blocks the others, and `migrated` is exactly the number
inserted, at most the batch length. -/
theorem C9_migration (db : Db) (w : String) (results : List GuestGameResult)
    (insertFails : GuestGameResult → Bool)
    (hne : results ≠ []) :
    migrate db (some w) results insertFails =
      .ok
        (((results.filter (fun r => (findPuzzle db r.puzzleId).isSome)).filter
            (fun r => !insertFails r)).length,
         { db with
            users := (upsertUser db w).2,
            gameResults :=
              ((results.filter (fun r => (findPuzzle db r.puzzleId).isSome)).filter
                (fun r => !insertFails r)).map (migrationRow (upsertUser db w).1.id)
              ++ db.gameResults }) ∧
    ((results.filter (fun r => (findPuzzle db r.puzzleId).isSome)).filter
        (fun r => !insertFails r)).length ≤ results.length := by
  have hne2 : results.isEmpty = false := by
    rw [Bool.eq_false_iff, ne_eq, List.isEmpty_iff]
    exact hne
  constructor
  · simp [migrate, hne2]
  · calc ((results.filter _).filter _).length
        ≤ (results.filter (fun r => (findPuzzle db r.puzzleId).isSome)).length :=
          List.length_filter_le _ _
      _ ≤ results.length := List.length_filter_le _ _

/-! ## Concrete sample data

Small stores used to instantiate the theorems on concrete inputs.  The
achievement catalog carries the ids and `xpReward` values seeded by
`src/db/seed.ts` (display strings abbreviated). -/

def seedCatalog : List AchievementDef :=
  [ { id := "first_win", title := "First Victory", description := "w1", icon := "i", xpReward := 50 },
    { id := "streak_3", title := "On a Roll", description := "s3", icon := "i", xpReward := 100 },
    { id := "streak_7", title := "Unstoppable", description := "s7", icon := "i", xpReward := 250 },
    { id := "streak_15", title := "Legendary Streak", description := "s15", icon := "i", xpReward := 500 },
    { id := "no_hints", title := "No Help Needed", description := "h0", icon := "i", xpReward := 75 },
    { id := "speed_demon", title := "Speed Demon", description := "t15", icon := "i", xpReward := 150 },
    { id := "daily_5", title := "Daily Devotee", description := "d5", icon := "i", xpReward := 200 },
    { id := "daily_30", title := "Monthly Master", description := "d30", icon := "i", xpReward := 500 },
    { id := "games_50", title := "Veteran", description := "g50", icon := "i", xpReward := 300 },
    { id := "perfect_10", title := "Perfectionist", description := "p10", icon := "i", xpReward := 400 } ]

def mkEvent (eid pid : String) (k : Nat) : PuzzleEvent :=
  { id := eid, puzzleId := pid, text := "t", date := "d", sortDate := "s",
    url := "u", orderIndex := k }

def mkLoss (uid pid : String) : GameResult :=
  { userId := uid, puzzleId := pid, won := false, score := 0, hintsUsed := 0,
    solveTimeMs := 5000 }

/-- First component of a successful submission, or an inert response. -/
def okResp (x : Except ApiError (SubmitResponse × Db)) : SubmitResponse :=
  match x with
  | .ok (r, _) => r
  | .error _ =>
    { won := false, score := 0, correctOrder := [], xpEarned := 0,
      newAchievements := [] }

/-- Second component of a successful submission, or the fallback store. -/
def okDbAfter (x : Except ApiError (SubmitResponse × Db)) (fallback : Db) : Db :=
  match x with
  | .ok (_, d) => d
  | .error _ => fallback

/-- Payload of a successful puzzle delivery, or an inert payload. -/
def okPuzzle (x : Except ApiError PuzzleResponse) : PuzzleResponse :=
  match x with
  | .ok r => r
  | .error _ =>
    { id := "", title := "", category := "", isDaily := false, events := [] }

/-- Guest store with one 5-event puzzle (events stored out of order). -/
def dbScenario : Db :=
  { puzzles := [{ id := "p1", title := "T", category := "C", isDaily := false,
                  dailyDate := none }],
    puzzleEvents := [mkEvent "e3" "p1" 2, mkEvent "e1" "p1" 0, mkEvent "e5" "p1" 4,
                     mkEvent "e2" "p1" 1, mkEvent "e4" "p1" 3],
    users := [], gameResults := [], achievements := seedCatalog,
    userAchievements := [] }

def outC1 : Except ApiError (SubmitResponse × Db) :=
  submit dbScenario none "p1" ["e2", "e1", "e3", "e4", "e5"] 0 1000

def outC2 : Except ApiError PuzzleResponse :=
  getTodayPuzzle dbScenario "2026-01-27" 0 (fun n => n + 1)

/-- Store for a winning daily submission continuing a one-win streak:
`eve` already won `p0` and already holds the win-gated one-shot
achievements. -/
def eveU : User := { id := "u-eve", walletAddress := "eve", xp := 40 }

def dbEve : Db :=
  { puzzles := [{ id := "p0", title := "T", category := "C", isDaily := false,
                  dailyDate := none },
                { id := "d1", title := "T", category := "C", isDaily := true,
                  dailyDate := some "2026-01-27" }],
    puzzleEvents := [mkEvent "e1" "d1" 0, mkEvent "e2" "d1" 1],
    users := [eveU],
    gameResults := [{ userId := "u-eve", puzzleId := "p0", won := true,
                      score := 5, hintsUsed := 1, solveTimeMs := 60000 }],
    achievements := seedCatalog,
    userAchievements := [("u-eve", "first_win")] }

def outC3 : Except ApiError (SubmitResponse × Db) :=
  submit dbEve (some "eve") "d1" ["e1", "e2"] 2 50000

/-- Store where `dave` already has an attempt on the daily puzzle `p1`. -/
def daveU : User := { id := "u-dave", walletAddress := "dave", xp := 0 }

def dbDave : Db :=
  { puzzles := [{ id := "p1", title := "T", category := "C", isDaily := true,
                  dailyDate := some "2026-01-27" }],
    puzzleEvents := [mkEvent "e1" "p1" 0, mkEvent "e2" "p1" 1],
    users := [daveU],
    gameResults := [{ userId := "u-dave", puzzleId := "p1", won := true,
                      score := 2, hintsUsed := 0, solveTimeMs := 9000 }],
    achievements := seedCatalog, userAchievements := [] }

/-- Guest store with a 2-event puzzle, used for the malformed candidate. -/
def dbMalformed : Db :=
  { puzzles := [{ id := "p1", title := "T", category := "C", isDaily := false,
                  dailyDate := none }],
    puzzleEvents := [mkEvent "e1" "p1" 0, mkEvent "e2" "p1" 1],
    users := [], gameResults := [], achievements := seedCatalog,
    userAchievements := [] }

/-- Store for `alice`'s first-ever game (spec scenario C). -/
def aliceU : User := { id := "u-alice", walletAddress := "alice", xp := 0 }

def dbFirstWin : Db :=
  { puzzles := [{ id := "p1", title := "T", category := "C", isDaily := false,
                  dailyDate := none }],
    puzzleEvents := [mkEvent "e3" "p1" 2, mkEvent "e1" "p1" 0, mkEvent "e5" "p1" 4,
                     mkEvent "e2" "p1" 1, mkEvent "e4" "p1" 3],
    users := [aliceU], gameResults := [], achievements := seedCatalog,
    userAchievements := [] }

def outC6 : Except ApiError (SubmitResponse × Db) :=
  submit dbFirstWin (some "alice") "p1" ["e1", "e2", "e3", "e4", "e5"] 0 10000

/-- Store where `bob` has lost four daily puzzles and is about to lose a
fifth (`d5`, which he has not attempted before). -/
def bobU : User := { id := "u-bob", walletAddress := "bob", xp := 0 }

def mkDaily (pid : String) : Puzzle :=
  { id := pid, title := "T", category := "C", isDaily := true,
    dailyDate := some "x" }

def dbDailyLosses : Db :=
  { puzzles := [mkDaily "d1", mkDaily "d2", mkDaily "d3", mkDaily "d4",
                mkDaily "d5"],
    puzzleEvents := [mkEvent "e1" "d5" 0, mkEvent "e2" "d5" 1],
    users := [bobU],
    gameResults := [mkLoss "u-bob" "d1", mkLoss "u-bob" "d2",
                    mkLoss "u-bob" "d3", mkLoss "u-bob" "d4"],
    achievements := seedCatalog, userAchievements := [] }

def outC7 : Except ApiError (SubmitResponse × Db) :=
  submit dbDailyLosses (some "bob") "d5" ["e2", "e1"] 1 40000

/-- Store and batch for the migration witness: `erin` authenticates for
the first time (no `users` row yet — the route's upsert creates one) and
migrates three guest results — one fine, one referencing a vanished
puzzle, one whose insert fails. -/
def dbErin : Db :=
  { puzzles := [{ id := "p1", title := "T", category := "C", isDaily := false,
                  dailyDate := none }],
    puzzleEvents := [mkEvent "e1" "p1" 0],
    users := [], gameResults := [], achievements := seedCatalog,
    userAchievements := [] }

def migBatch : List GuestGameResult :=
  [ { puzzleId := "p1", won := true, score := 1, hintsUsed := 0,
      solveTimeMs := 3000, playedAt := "a" },
    { puzzleId := "ghost", won := true, score := 1, hintsUsed := 0,
      solveTimeMs := 4000, playedAt := "b" },
    { puzzleId := "p1", won := false, score := 0, hintsUsed := 1,
      solveTimeMs := 77, playedAt := "c" } ]

def migFails (r : GuestGameResult) : Bool := r.solveTimeMs == 77

/-- Store for `carol`'s losing 50th game. -/
def carolU : User := { id := "u-carol", walletAddress := "carol", xp := 7 }

def dbCarol : Db :=
  { puzzles := [{ id := "p1", title := "T", category := "C", isDaily := false,
                  dailyDate := none }],
    puzzleEvents := [mkEvent "e1" "p1" 0, mkEvent "e2" "p1" 1],
    users := [carolU],
    gameResults := List.replicate 49 (mkLoss "u-carol" "p1"),
    achievements := seedCatalog, userAchievements := [] }

def outC10 : Except ApiError (SubmitResponse × Db) :=
  submit dbCarol (some "carol") "p1" ["e2", "e1"] 1 40000

/-- Formalization of the wording of the `daily_5`/`daily_30` condition in
the specification: the lifetime count of won daily-flagged attempts. -/
def wonDailyAttemptCount (db : Db) (uid : String) : Nat :=
  (db.gameResults.filter
    (fun r => r.userId == uid && r.won && isDailyPuzzle db r.puzzleId)).length

/-- C5: code behavior at the failing input — a candidate of the wrong
length (3 against a 2-event puzzle) containing an id that is not one of
the puzzle's events is accepted and scored as a win, instead of being
rejected as `InvalidInput`: the route only rejects an empty candidate
array. -/
theorem C5_code_behavior :
    submit dbMalformed none "p1" ["e1", "e2", "zzz"] 0 1000 =
      .ok ({ won := true, score := 2, correctOrder := ["e1", "e2"],
             xpEarned := 0, newAchievements := [] }, dbMalformed) ∧
    ¬ (["e1", "e2", "zzz"] : List String).length =
        (eventsForPuzzle dbMalformed "p1").length ∧
    "zzz" ∉ (eventsForPuzzle dbMalformed "p1").map (·.id) := by
  decide

/-- C6 counterexample: spec scenario C (first-ever win, no hints, 10 s,
non-daily) earns 455 XP, not the claimed 230 — the attempt also unlocks
`no_hints` (75) and `speed_demon` (150). -/
theorem C6_counterexample :
    (okResp outC6).xpEarned = 455 ∧ ¬ (okResp outC6).xpEarned = 230 := by
  decide

/-- C6 (amended): scenario C wins with
`xpEarned = 100 + 50 + 30 + (50 + 75 + 150) = 455`, and the newly
unlocked achievements are `first_win`, `no_hints` and `speed_demon`. -/
theorem C6_amended_scenario :
    outC6 = .ok (okResp outC6, okDbAfter outC6 dbFirstWin) ∧
    (okResp outC6).won = true ∧
    (okResp outC6).xpEarned = 100 + 50 + 30 + (50 + 75 + 150) ∧
    (okResp outC6).newAchievements.map (·.id) =
      ["first_win", "no_hints", "speed_demon"] := by
  decide

/-- C7 counterexample: `bob`'s fifth daily attempt — all five of them
losses — newly unlocks `daily_5`, although his lifetime count of won
daily-flagged attempts is 0, not at least 5. -/
theorem C7_counterexample :
    "daily_5" ∈ (okResp outC7).newAchievements.map (·.id) ∧
    wonDailyAttemptCount (okDbAfter outC7 dbDailyLosses) "u-bob" = 0 ∧
    ¬ 5 ≤ wonDailyAttemptCount (okDbAfter outC7 dbDailyLosses) "u-bob" := by
  decide

/-! ## Witnesses -/

/-- C1 witness: spec scenario B — candidate `[e2, e1, e3, e4, e5]`
against correct order `[e1, .., e5]` scores 3 and does not win. -/
theorem C1_witness :
    submit dbScenario none "p1" ["e2", "e1", "e3", "e4", "e5"] 0 1000 =
      .ok (okResp outC1, okDbAfter outC1 dbScenario) ∧
    ((okResp outC1).correctOrder = (eventsForPuzzle dbScenario "p1").map (·.id) ∧
     (eventsForPuzzle dbScenario "p1").Sorted
       (fun a b => a.orderIndex ≤ b.orderIndex) ∧
     (eventsForPuzzle dbScenario "p1").Perm
       (dbScenario.puzzleEvents.filter (fun e => e.puzzleId == "p1")) ∧
     (okResp outC1).score =
       ((List.range (okResp outC1).correctOrder.length).filter
         (fun i => decide ((["e2", "e1", "e3", "e4", "e5"] : List String)[i]? =
           (okResp outC1).correctOrder[i]?))).length ∧
     (okResp outC1).score ≤ (okResp outC1).correctOrder.length ∧
     ((okResp outC1).won = true ↔
       (okResp outC1).score = (okResp outC1).correctOrder.length)) ∧
    (okResp outC1).score = 3 ∧ (okResp outC1).won = false :=
  ⟨by decide,
   C1_answer_validation dbScenario none "p1" ["e2", "e1", "e3", "e4", "e5"] 0 1000
     (okResp outC1) (okDbAfter outC1 dbScenario) (by decide),
   by decide, by decide⟩

/-- C2 witness: the delivered payload for the sample store has exactly
one served event per stored event of the served puzzle. -/
theorem C2_witness :
    getTodayPuzzle dbScenario "2026-01-27" 0 (fun n => n + 1) =
      .ok (okPuzzle outC2) ∧
    (okPuzzle outC2).events.length =
      (eventsForPuzzle dbScenario (okPuzzle outC2).id).length ∧
    (okPuzzle outC2).events.length = 5 :=
  ⟨by decide,
   (C2_answer_free_delivery dbScenario "2026-01-27" 0 (fun n => n + 1)
     (okPuzzle outC2) (by decide)).1,
   by decide⟩

/-- C3 witness: `eve` wins a daily with 2 hints in 50 s, reaching streak
2: 100 base + 40 streak + 75 daily and no new achievements = 215 XP. -/
theorem C3_witness :
    findUser dbEve "eve" = some eveU ∧
    submit dbEve (some "eve") "d1" ["e1", "e2"] 2 50000 =
      .ok (okResp outC3, okDbAfter outC3 dbEve) ∧
    (okResp outC3).xpEarned =
      (if (okResp outC3).won then
        XP_AWARDS.win
          + (if (2 : Nat) = 0 then XP_AWARDS.perfectBonus else 0)
          + (if (50000 : Nat) < SPEED_BONUS_THRESHOLD_MS then
               XP_AWARDS.speedBonus else 0)
          + (if 1 < currentStreakOf
                ((userResults (okDbAfter outC3 dbEve) eveU.id).map (·.won)) then
               XP_AWARDS.streakMultiplier
                 * currentStreakOf
                     ((userResults (okDbAfter outC3 dbEve) eveU.id).map (·.won))
             else 0)
          + (if isDailyPuzzle dbEve "d1" then XP_AWARDS.dailyChallenge else 0)
       else 0)
      + ((okResp outC3).newAchievements.map (·.xpReward)).sum ∧
    (okResp outC3).xpEarned = 215 :=
  ⟨by decide, by decide,
   C3_xp_formula dbEve "eve" "d1" ["e1", "e2"] 2 50000 eveU
     (okResp outC3) (okDbAfter outC3 dbEve) (by decide) (by decide),
   by decide⟩

/-- C4 witness: `dave` resubmitting the daily he already attempted is
rejected with `Conflict`. -/
theorem C4_witness :
    submit dbDave (some "dave") "p1" ["e1", "e2"] 0 5000 = .error .conflict :=
  C4_daily_conflict dbDave "dave" "p1" ["e1", "e2"] 0 5000 daveU
    (by decide) (by decide) (by decide) (by decide) (by decide) (by decide)

/-- C9 witness: `erin`'s first-time-auth migration — the upsert creates
her `users` row, the record with a vanished puzzle is skipped, the
failing insert is skipped, the remaining record is inserted under her
identity, and `migrated = 1`. -/
theorem C9_witness :
    (migrate dbErin (some "erin") migBatch migFails =
      .ok
        (((migBatch.filter (fun r => (findPuzzle dbErin r.puzzleId).isSome)).filter
            (fun r => !migFails r)).length,
         { dbErin with
            users := (upsertUser dbErin "erin").2,
            gameResults :=
              ((migBatch.filter (fun r => (findPuzzle dbErin r.puzzleId).isSome)).filter
                (fun r => !migFails r)).map
                  (migrationRow (upsertUser dbErin "erin").1.id)
              ++ dbErin.gameResults }) ∧
     ((migBatch.filter (fun r => (findPuzzle dbErin r.puzzleId).isSome)).filter
        (fun r => !migFails r)).length ≤ migBatch.length) ∧
    ((migBatch.filter (fun r => (findPuzzle dbErin r.puzzleId).isSome)).filter
        (fun r => !migFails r)).length = 1 ∧
    findUser dbErin "erin" = none ∧
    (upsertUser dbErin "erin").2 =
      dbErin.users ++ [{ id := "erin", walletAddress := "erin", xp := 0 }] :=
  ⟨C9_migration dbErin "erin" migBatch migFails (by decide),
   by decide, by decide, by decide⟩

/-- C10 witness: `carol`'s losing 50th game newly unlocks `games_50` and
earns exactly its 300 XP reward, credited to her stored total. -/
theorem C10_witness :
    findUser dbCarol "carol" = some carolU ∧
    submit dbCarol (some "carol") "p1" ["e2", "e1"] 1 40000 =
      .ok (okResp outC10, okDbAfter outC10 dbCarol) ∧
    (okResp outC10).won = false ∧
    ((okResp outC10).xpEarned =
        ((okResp outC10).newAchievements.map (·.xpReward)).sum ∧
     findUser (okDbAfter outC10 dbCarol) "carol" =
       some { carolU with xp := carolU.xp + (okResp outC10).xpEarned }) ∧
    (okResp outC10).xpEarned = 300 :=
  ⟨by decide, by decide, by decide,
   C10_loss_xp dbCarol "carol" "p1" ["e2", "e1"] 1 40000 carolU
     (okResp outC10) (okDbAfter outC10 dbCarol) (by decide) (by decide) (by decide),
   by decide⟩

end DepthPerception
